import Mathlib

/-!
Verification of the split-screen document viewer.

Shallow embedding of the viewer's content-type dispatch and rendering
pipeline (`ProxyContent`) and of the proxy server's `/proxy` and `/upload`
endpoints (`server.js`).  External libraries (XLSX, PapaParse, mammoth,
puppeteer, the `fetch` API) are modelled as parameters or abstract inputs;
the branching logic of the repository itself is translated faithfully.
-/

/-! ## String machinery: JS `String.prototype.includes` / `startsWith` -/

/-- `startsWithChars pat hay` is true iff `pat` is a prefix of `hay`.
Character-list core of JS `String.prototype.startsWith`. -/
def startsWithChars : List Char → List Char → Bool
  | [], _ => true
  | _ :: _, [] => false
  | a :: as, b :: bs => a == b && startsWithChars as bs

/-- `containsChars pat hay` is true iff `pat` occurs contiguously in `hay`.
Character-list core of JS `String.prototype.includes`. -/
def containsChars (pat : List Char) : List Char → Bool
  | [] => startsWithChars pat []
  | c :: cs => startsWithChars pat (c :: cs) || containsChars pat cs

/-- JS `s.includes(pat)`. -/
def strIncludes (s pat : String) : Bool :=
  containsChars pat.data s.data

/-- JS `s.startsWith(pat)`. -/
def strStartsWith (s pat : String) : Bool :=
  startsWithChars pat.data s.data

theorem startsWithChars_self (l : List Char) : startsWithChars l l = true := by
  induction l with
  | nil => rfl
  | cons a as ih => simp [startsWithChars, ih]

theorem containsChars_of_startsWith (pat hay : List Char)
    (h : startsWithChars pat hay = true) : containsChars pat hay = true := by
  cases hay with
  | nil => simpa [containsChars] using h
  | cons c cs => simp [containsChars, h]

theorem containsChars_self (l : List Char) : containsChars l l = true :=
  containsChars_of_startsWith l l (startsWithChars_self l)

/-- A pattern occurring in `ys` occurs in `xs ++ ys`. -/
theorem containsChars_append_right (pat xs ys : List Char)
    (h : containsChars pat ys = true) : containsChars pat (xs ++ ys) = true := by
  induction xs with
  | nil => simpa using h
  | cons c cs ih =>
      rw [List.cons_append]
      simp only [containsChars, Bool.or_eq_true]
      exact Or.inr ih

theorem strIncludes_self (s : String) : strIncludes s s = true :=
  containsChars_self s.data

/-! ## Type dispatcher (`handleContentType`, ProxyContent lines 63-128)

The source function also performs the rendering side effects; the pure
renderer-selection part (which `if`/`else if` branch fires for a given
content-type string) is embedded here. -/

inductive Renderer
  | pdf
  | image
  | spreadsheet
  | csv
  | wordHtml
  | powerpoint
  | download
deriving DecidableEq

/-- Renderer selection of `handleContentType`: the `if`/`else if` chain on
`contentType.includes(...)` tests, translated condition for condition. -/
def handleContentType (contentType : String) : Renderer :=
  if strIncludes contentType "application/pdf" then Renderer.pdf
  else if strIncludes contentType "image/" then Renderer.image
  else if strIncludes contentType "application/vnd.openxmlformats-officedocument.spreadsheetml.sheet"
      || strIncludes contentType "application/vnd.ms-excel" then Renderer.spreadsheet
  else if strIncludes contentType "text/csv" then Renderer.csv
  else if strIncludes contentType "application/msword"
      || strIncludes contentType "application/vnd.openxmlformats-officedocument.wordprocessingml.document"
      || strIncludes contentType "text/html" then Renderer.wordHtml
  else if strIncludes contentType "application/vnd.ms-powerpoint"
      || strIncludes contentType "application/vnd.openxmlformats-officedocument.presentationml.presentation"
      then Renderer.powerpoint
  else Renderer.download

/-- The dispatch table in the spec's stated priority order:
PDF, image/*, spreadsheet (xlsx/xls), CSV, Word/HTML, PowerPoint. -/
def dispatchOrder : List (List String × Renderer) :=
  [ (["application/pdf"], Renderer.pdf),
    (["image/"], Renderer.image),
    (["application/vnd.openxmlformats-officedocument.spreadsheetml.sheet",
      "application/vnd.ms-excel"], Renderer.spreadsheet),
    (["text/csv"], Renderer.csv),
    (["application/msword",
      "application/vnd.openxmlformats-officedocument.wordprocessingml.document",
      "text/html"], Renderer.wordHtml),
    (["application/vnd.ms-powerpoint",
      "application/vnd.openxmlformats-officedocument.presentationml.presentation"],
      Renderer.powerpoint) ]

/-- First-match-wins semantics over an ordered dispatch table, defaulting to
the generic download renderer: the spec's description of the dispatcher. -/
def firstMatch (ct : String) : List (List String × Renderer) → Renderer
  | [] => Renderer.download
  | (pats, r) :: rest =>
      if pats.any (fun p => strIncludes ct p) then r else firstMatch ct rest

/-- C1: the type dispatcher is a pure function from a content-type string to a
renderer selection; matching is substring-based (`includes`), checked in the
priority order PDF, image/*, spreadsheet (xlsx/xls), CSV, Word/HTML,
PowerPoint, else generic download; the first matching entry of the ordered
table decides and later entries are never consulted. -/
theorem dispatch_is_first_match_in_priority_order (ct : String) :
    handleContentType ct = firstMatch ct dispatchOrder := by
  simp only [handleContentType, firstMatch, dispatchOrder, List.any_cons, List.any_nil,
    Bool.or_false, Bool.or_assoc]

/-- C2 counterexample: a content-type string containing both "application/pdf"
and "image/" is dispatched to the PDF renderer, not the image renderer,
because the PDF test precedes the image test. -/
theorem image_dispatch_counterexample :
    strIncludes "image/application/pdf" "image/" = true ∧
    handleContentType "image/application/pdf" = Renderer.pdf ∧
    Renderer.pdf ≠ Renderer.image := by
  refine ⟨by decide, by decide, by decide⟩

/-- C2 (amended): for every content-type string containing the substring
"image/" and not containing "application/pdf", the dispatcher selects the
image renderer, regardless of any other substrings present. -/
theorem image_dispatch_amended (ct : String)
    (himg : strIncludes ct "image/" = true)
    (hpdf : strIncludes ct "application/pdf" = false) :
    handleContentType ct = Renderer.image := by
  simp [handleContentType, hpdf, himg]

/-- C2 witness: the amended dispatch theorem applied to "image/png". -/
theorem image_dispatch_amended_witness :
    handleContentType "image/png" = Renderer.image :=
  image_dispatch_amended "image/png" (by decide) (by decide)

/-! ## Table state (`tableData`, `handleSheetChange`, sheet selector)

`tableData` holds the sheet-name → HTML mapping (a JS object, embedded as an
insertion-ordered association list) and the active sheet name. -/

structure TableData where
  html : Option (List (String × String))
  activeSheet : Option String
deriving DecidableEq

/-- JS object assignment `m[k] = v`: overwrite in place if the key exists,
else append (insertion order preserved). -/
def assocSet (m : List (String × String)) (k v : String) : List (String × String) :=
  if m.any (fun p => p.1 == k) then m.map (fun p => if p.1 == k then (k, v) else p)
  else m ++ [(k, v)]

/-- `workbook.SheetNames.forEach(name => sheets[name] = sheet_to_html(...))`
(ProxyContent lines 76-85); the per-sheet HTML generation is the external
XLSX library, passed in as `sheetToHtml`. -/
def buildSheets (sheetNames : List String) (sheetToHtml : String → String) :
    List (String × String) :=
  sheetNames.foldl (fun m n => assocSet m n (sheetToHtml n)) []

/-- Spreadsheet branch of `handleContentType` (lines 74-88): build the sheet
map, throw if it is empty, else store it with the first sheet active. -/
def xlsxBranch (sheetNames : List String) (sheetToHtml : String → String) :
    Except String TableData :=
  match buildSheets sheetNames sheetToHtml with
  | [] => Except.error "No valid sheets found in the Excel file"
  | s :: rest => Except.ok { html := some (s :: rest), activeSheet := some s.1 }

/-- `handleSheetChange` (lines 130-132): `{ ...prev, activeSheet: value }`. -/
def handleSheetChange (value : String) (prev : TableData) : TableData :=
  { prev with activeSheet := some value }

/-- The `<option>` list of the sheet `<select>` (lines 221-225):
`Object.keys(tableData.html).map(...)`, one option per key. -/
def sheetOptions (td : TableData) : List String :=
  match td.html with
  | none => []
  | some sheets => sheets.map Prod.fst

theorem assocSet_of_fresh (m : List (String × String)) (k v : String)
    (h : ∀ p ∈ m, p.1 ≠ k) : assocSet m k v = m ++ [(k, v)] := by
  have hany : (m.any fun p => p.1 == k) = false := by
    rw [List.any_eq_false]
    intro p hp
    simpa using h p hp
  simp [assocSet, hany]

theorem foldl_assocSet_keys (sheetToHtml : String → String) (names : List String) :
    ∀ acc : List (String × String),
      names.Nodup → (∀ n ∈ names, ∀ p ∈ acc, p.1 ≠ n) →
      (List.foldl (fun m n => assocSet m n (sheetToHtml n)) acc names).map Prod.fst
        = acc.map Prod.fst ++ names := by
  induction names with
  | nil => intro acc _ _; simp
  | cons n rest ih =>
      intro acc hnd hfresh
      have hn : ∀ p ∈ acc, p.1 ≠ n :=
        fun p hp => hfresh n (List.mem_cons_self n rest) p hp
      have hfresh' : ∀ m ∈ rest, ∀ p ∈ acc ++ [(n, sheetToHtml n)], p.1 ≠ m := by
        intro m hm p hp
        rcases List.mem_append.mp hp with h1 | h2
        · exact hfresh m (List.mem_cons_of_mem n hm) p h1
        · have hpn : p = (n, sheetToHtml n) := by simpa using h2
          subst hpn
          intro hnm
          have hnm' : n = m := hnm
          exact (List.nodup_cons.mp hnd).1 (by rw [hnm']; exact hm)
      rw [List.foldl_cons, assocSet_of_fresh acc n (sheetToHtml n) hn,
        ih (acc ++ [(n, sheetToHtml n)]) (List.nodup_cons.mp hnd).2 hfresh']
      simp

/-- With distinct sheet names (always true of a real workbook), the keys of
the built sheet map are exactly the sheet names, in order. -/
theorem buildSheets_keys (names : List String) (sheetToHtml : String → String)
    (h : names.Nodup) : (buildSheets names sheetToHtml).map Prod.fst = names := by
  simpa [buildSheets] using foldl_assocSet_keys sheetToHtml names [] h (by simp)

/-- C3: for a spreadsheet input producing N (distinct) sheets, the sheet
selector exposes exactly N options, and switching the active sheet is a pure
state update that changes only the `activeSheet` field, leaving the
sheet-name-to-HTML mapping unchanged; no fetch is involved in the update. -/
theorem sheet_selector_options_and_pure_switch (sheetNames : List String)
    (sheetToHtml : String → String) (td : TableData)
    (hnd : sheetNames.Nodup)
    (hok : xlsxBranch sheetNames sheetToHtml = Except.ok td) :
    (sheetOptions td).length = sheetNames.length ∧
    ∀ (v : String) (prev : TableData),
      (handleSheetChange v prev).html = prev.html ∧
      (handleSheetChange v prev).activeSheet = some v := by
  refine ⟨?_, fun v prev => ⟨rfl, rfl⟩⟩
  unfold xlsxBranch at hok
  cases hb : buildSheets sheetNames sheetToHtml with
  | nil => rw [hb] at hok; exact absurd hok (by simp)
  | cons s rest =>
      rw [hb] at hok
      have htd : td = { html := some (s :: rest), activeSheet := some s.1 } := by
        cases hok; rfl
      subst htd
      have hkeys := buildSheets_keys sheetNames sheetToHtml hnd
      rw [hb] at hkeys
      calc (sheetOptions { html := some (s :: rest), activeSheet := some s.1 }).length
          = ((s :: rest).map Prod.fst).length := rfl
        _ = sheetNames.length := by rw [hkeys]

/-- C3 witness: a two-sheet workbook yields two selector options, and sheet
switching is the pure `activeSheet` update. -/
theorem sheet_selector_witness :
    (sheetOptions { html := some [("A", "h"), ("B", "h")], activeSheet := some "A" }).length = 2 ∧
    ∀ (v : String) (prev : TableData),
      (handleSheetChange v prev).html = prev.html ∧
      (handleSheetChange v prev).activeSheet = some v :=
  sheet_selector_options_and_pure_switch ["A", "B"] (fun _ => "h")
    { html := some [("A", "h"), ("B", "h")], activeSheet := some "A" }
    (by decide) (by rfl)

/-! ## CSV branch of `handleContentType` (ProxyContent lines 89-112)

PapaParse (`header: false`) is external: the branch receives the parsed
`result.data`, a list of rows, each a list of cell strings (an empty parse
yields an empty list, a missing cell is absent from its row). -/

/-- `result.data[0].map((header, index) => ...)` (lines 93-96): column key is
the stringified index, column name is the header cell, or "Column N" when the
header cell is falsy (empty). -/
def csvColumns (headerRow : List String) : List (String × String) :=
  (List.range headerRow.length).map fun index =>
    (toString index,
     if headerRow.getD index "" = "" then "Column " ++ toString (index + 1)
     else headerRow.getD index "")

/-- One data row turned into its cells keyed by column position
(lines 97-102): `row[colIndex]?.toString() || ''` — a missing (or empty)
cell becomes the empty string. -/
def csvRowCells (numColumns : Nat) (row : List String) : List String :=
  (List.range numColumns).map fun colIndex => row.getD colIndex ""

/-- The generated `<table>` markup (lines 103-108). -/
def csvHtml (columns : List (String × String)) (rows : List (List String)) : String :=
  "<table border=\"1\"><thead><tr>"
    ++ String.join (columns.map fun col => "<th>" ++ col.2 ++ "</th>")
    ++ "</tr></thead><tbody>"
    ++ String.join (rows.map fun row =>
        "<tr>" ++ String.join (row.map fun cell => "<td>" ++ cell ++ "</td>") ++ "</tr>")
    ++ "</tbody></table>"

/-- CSV branch (lines 89-112): empty parse data throws
"No data found in the CSV file"; otherwise the first row is the header and a
single synthetic sheet "Sheet1" holds the generated table. -/
def csvBranch (data : List (List String)) : Except String TableData :=
  match data with
  | [] => Except.error "No data found in the CSV file"
  | headerRow :: rest =>
      let columns := csvColumns headerRow
      let rows := rest.map fun row => csvRowCells columns.length row
      Except.ok { html := some [("Sheet1", csvHtml columns rows)],
                  activeSheet := some "Sheet1" }

theorem getD_map_range {α : Type} (f : Nat → α) (n i : Nat) (d : α) (h : i < n) :
    ((List.range n).map f).getD i d = f i := by
  rw [List.getD_eq_getElem?_getD, List.getElem?_map, List.getElem?_range h]
  rfl

theorem getD_eq_default_of_le {α : Type} (l : List α) (i : Nat) (d : α)
    (h : l.length ≤ i) : l.getD i d = d := by
  rw [List.getD_eq_getElem?_getD, List.getElem?_eq_none h]
  rfl

/-- C4: a CSV parse producing zero rows reports the explicit "no data" error
and yields no table, and spreadsheet parsing fails when zero sheets are
produced. -/
theorem empty_data_yields_error_not_table :
    csvBranch [] = Except.error "No data found in the CSV file" ∧
    ∀ sheetToHtml : String → String,
      xlsxBranch [] sheetToHtml = Except.error "No valid sheets found in the Excel file" :=
  ⟨rfl, fun _ => rfl⟩

/-- C5: for a CSV whose header row has length K and a data row of length
strictly less than K, the CSV branch raises no error, the row renders with
exactly K cells, each cell missing from the data row renders as the empty
string, and a missing (empty) header cell at index i is given the
synthesized name "Column (i+1)". -/
theorem short_row_pads_with_empty_strings (headerRow row : List String)
    (rest : List (List String)) (i : Nat)
    (hshort : row.length < headerRow.length)
    (hge : row.length ≤ i) (hlt : i < headerRow.length) :
    (∃ td, csvBranch (headerRow :: rest) = Except.ok td) ∧
    (csvRowCells (csvColumns headerRow).length row).length = headerRow.length ∧
    (csvRowCells (csvColumns headerRow).length row).getD i "?" = "" ∧
    (headerRow.getD i "" = "" →
      (csvColumns headerRow).getD i ("", "") = (toString i, "Column " ++ toString (i + 1))) := by
  have hcols : (csvColumns headerRow).length = headerRow.length := by
    simp [csvColumns]
  refine ⟨⟨_, rfl⟩, ?_, ?_, ?_⟩
  · simp [csvRowCells, hcols]
  · rw [hcols, csvRowCells, getD_map_range _ _ _ _ hlt,
      getD_eq_default_of_le row i "" hge]
  · intro hempty
    rw [csvColumns, getD_map_range _ _ _ _ hlt, if_pos hempty]

/-- C5 witness: header ["a", "", "c"] (K = 3) with the single data row ["x"];
index 1 is missing from the data row and empty in the header. -/
theorem short_row_witness :
    (∃ td, csvBranch [["a", "", "c"], ["x"]] = Except.ok td) ∧
    (csvRowCells (csvColumns ["a", "", "c"]).length ["x"]).length = 3 ∧
    (csvRowCells (csvColumns ["a", "", "c"]).length ["x"]).getD 1 "?" = "" ∧
    ((["a", "", "c"] : List String).getD 1 "" = "" →
      (csvColumns ["a", "", "c"]).getD 1 ("", "") = (toString 1, "Column " ++ toString (1 + 1))) :=
  short_row_pads_with_empty_strings ["a", "", "c"] ["x"] [["x"]] 1
    (by decide) (by decide) (by decide)

/-! ## Component state and render cycle (`ProxyContent` lines 6-10, 42-59,
160-307)

The component keeps four independent state cells (`content`, `error`,
`tableData`, `htmlContent`); the returned JSX is a priority chain over
them. -/

inductive ContentVal
  | pdf (url : String)
  | image (url : String)
  | download (url : String) (message : Option String)
deriving DecidableEq

structure CompState where
  content : Option ContentVal
  error : Option String
  tableData : TableData
  htmlContent : Option String
deriving DecidableEq

inductive View
  | errorBanner (message : String) (downloadUrl : Option String)
  | loading
  | table (sheets : List (String × String)) (activeSheet : Option String)
  | richHtml (html : String)
  | pdfEmbed (url : String)
  | imageView (url : String)
  | downloadView (url : String) (message : String)
  | empty
deriving DecidableEq

/-- The download link shown inside the error banner when
`content?.type === 'download'` (line 173). -/
def errorDownloadUrl : Option ContentVal → Option String
  | some (ContentVal.download u _) => some u
  | _ => none

/-- JS truthiness of a nullable string state cell: both `null` and the empty
string are falsy, every other string truthy. -/
def strTruthy : Option String → Bool
  | none => false
  | some s => !(s == "")

/-- The render chain of `ProxyContent` (lines 160-307): error banner first,
then the loading placeholder, then table, rich HTML, PDF embed, image,
download link, else nothing.  The guards on the string cells `error` and
`htmlContent` (lines 160, 185, 280) are JS truthiness tests, so an empty
string behaves like `null` there; `content` and `tableData.html` hold
objects, which are truthy exactly when non-null. -/
def render (s : CompState) : View :=
  if strTruthy s.error then
    View.errorBanner (s.error.getD "") (errorDownloadUrl s.content)
  else if s.content.isNone && s.tableData.html.isNone && !strTruthy s.htmlContent then
    View.loading
  else
    match s.tableData.html with
    | some sheets => View.table sheets s.tableData.activeSheet
    | none =>
        if strTruthy s.htmlContent then
          View.richHtml (s.htmlContent.getD "")
        else
          match s.content with
          | some (ContentVal.pdf u) => View.pdfEmbed u
          | some (ContentVal.image u) => View.imageView u
          | some (ContentVal.download u m) =>
              View.downloadView u
                (m.getD "This file type is not directly renderable. Please download to view.")
          | none => View.empty

/-- The user-facing fetch-failure message (line 44). -/
def mkErrorMessage (errMsg : String) : String :=
  "Failed to load content: " ++ errMsg
    ++ ". Ensure the proxy server is running at http://localhost:5001."

/-- Component state after the catch handler of `fetchContent` runs for a
failed blob fetch whose fallback blob fetch succeeds (lines 42-51): the error
message and a download-only content value are both set. -/
def blobFailureState (errMsg objectUrl : String) : CompState :=
  { content := some (ContentVal.download objectUrl none),
    error := some (mkErrorMessage errMsg),
    tableData := { html := none, activeSheet := none },
    htmlContent := none }

/-- C6 counterexample: after a failed blob fetch with a successful download
fallback, the component state simultaneously holds data for the Error variant
and the Download variant. -/
theorem state_holds_two_variants_counterexample :
    (blobFailureState "Blob fetch failed: 404 - Not Found" "blob:fb").error
        = some (mkErrorMessage "Blob fetch failed: 404 - Not Found") ∧
    (blobFailureState "Blob fetch failed: 404 - Not Found" "blob:fb").content
        = some (ContentVal.download "blob:fb" none) :=
  ⟨rfl, rfl⟩

/-- The RenderState variant a view belongs to. -/
inductive VariantTag
  | error
  | loading
  | table
  | richHtml
  | pdf
  | image
  | download
  | empty
deriving DecidableEq

def viewVariant : View → VariantTag
  | View.errorBanner _ _ => VariantTag.error
  | View.loading => VariantTag.loading
  | View.table _ _ => VariantTag.table
  | View.richHtml _ => VariantTag.richHtml
  | View.pdfEmbed _ => VariantTag.pdf
  | View.imageView _ => VariantTag.image
  | View.downloadView _ _ => VariantTag.download
  | View.empty => VariantTag.empty

/-- Every `set*` call site of the component, as a state update.
`resetForFetch` is the reset at lines 18-21; `setErrorMsg` the `setError`
calls (lines 14, 44); `setContentVal` the `setContent` calls (lines 48, 55,
67, 69, 124, 126); `setTable` the `setTableData` calls (lines 88, 109);
`setHtml` the `setHtmlContent` call (line 119); `sheetChange` is
`handleSheetChange` (lines 130-132). -/
inductive StateUpdate
  | resetForFetch
  | setErrorMsg (msg : String)
  | setContentVal (c : ContentVal)
  | setTable (td : TableData)
  | setHtml (text : String)
  | sheetChange (value : String)
deriving DecidableEq

def applyUpdate : StateUpdate → CompState → CompState
  | StateUpdate.resetForFetch, s =>
      { s with content := none, error := none,
               tableData := { html := none, activeSheet := none },
               htmlContent := none }
  | StateUpdate.setErrorMsg msg, s => { s with error := some msg }
  | StateUpdate.setContentVal c, s => { s with content := some c }
  | StateUpdate.setTable td, s => { s with tableData := td }
  | StateUpdate.setHtml text, s => { s with htmlContent := some text }
  | StateUpdate.sheetChange value, s =>
      { s with tableData := handleSheetChange value s.tableData }

/-- Which update sites run as part of the fetch/parse pipeline: all of them
sit inside `fetchContent` or `handleContentType` except the sheet switch,
which is triggered by the `<select>` change event. -/
def fetchOrParseDriven : StateUpdate → Bool
  | StateUpdate.sheetChange _ => false
  | _ => true

/-- C6 (amended): at every point in a render cycle exactly one RenderState
variant is rendered, chosen by the fixed priority Error, Loading, Table,
RichHTML, PDF embed, image, download (under JS falsiness: an empty `error` or
`htmlContent` string counts as absent); the component state itself can hold
data for both the Error and Download variants at once (failed blob fetch with
successful fallback), in which case the Error banner, carrying the download
link, is the one rendered; and every transition between rendered variants is
driven by a fetch or parse outcome — the only state update outside the
fetch/parse pipeline, the sheet switch, leaves the rendered variant
unchanged. -/
theorem render_single_variant_by_priority (s : CompState) :
    (∀ msg, s.error = some msg → msg ≠ "" →
      render s = View.errorBanner msg (errorDownloadUrl s.content)) ∧
    (strTruthy s.error = false → s.content = none → s.tableData.html = none →
      strTruthy s.htmlContent = false → render s = View.loading) ∧
    (∀ sheets, strTruthy s.error = false → s.tableData.html = some sheets →
      render s = View.table sheets s.tableData.activeSheet) ∧
    (∀ h, strTruthy s.error = false → s.tableData.html = none →
      s.htmlContent = some h → h ≠ "" → render s = View.richHtml h) ∧
    (∀ u, strTruthy s.error = false → s.tableData.html = none →
      strTruthy s.htmlContent = false → s.content = some (ContentVal.pdf u) →
      render s = View.pdfEmbed u) ∧
    (∀ u, strTruthy s.error = false → s.tableData.html = none →
      strTruthy s.htmlContent = false → s.content = some (ContentVal.image u) →
      render s = View.imageView u) ∧
    (∀ u m, strTruthy s.error = false → s.tableData.html = none →
      strTruthy s.htmlContent = false → s.content = some (ContentVal.download u m) →
      render s = View.downloadView u
        (m.getD "This file type is not directly renderable. Please download to view.")) ∧
    (∀ upd, fetchOrParseDriven upd = false →
      viewVariant (render (applyUpdate upd s)) = viewVariant (render s)) := by
  refine ⟨?_, ?_, ?_, ?_, ?_, ?_, ?_, ?_⟩
  · intro msg hmsg hne
    have ht : strTruthy (some msg) = true := by simp [strTruthy, hne]
    simp [render, hmsg, ht]
  · intro h1 h2 h3 h4; simp [render, h1, h2, h3, h4]
  · intro sheets h1 h2; simp [render, h1, h2]
  · intro h h1 h2 h3 h4
    have ht : strTruthy (some h) = true := by simp [strTruthy, h4]
    simp [render, h1, h2, h3, ht]
  · intro u h1 h2 h3 h4; simp [render, h1, h2, h3, h4]
  · intro u h1 h2 h3 h4; simp [render, h1, h2, h3, h4]
  · intro u m h1 h2 h3 h4; simp [render, h1, h2, h3, h4]
  · intro upd hupd
    cases upd with
    | resetForFetch => simp [fetchOrParseDriven] at hupd
    | setErrorMsg msg => simp [fetchOrParseDriven] at hupd
    | setContentVal c => simp [fetchOrParseDriven] at hupd
    | setTable td => simp [fetchOrParseDriven] at hupd
    | setHtml text => simp [fetchOrParseDriven] at hupd
    | sheetChange value =>
        obtain ⟨content, error, ⟨html, activeSheet⟩, htmlContent⟩ := s
        cases herr : strTruthy error with
        | true => simp [render, applyUpdate, handleSheetChange, herr, viewVariant]
        | false =>
            cases html with
            | some sheets =>
                simp [render, applyUpdate, handleSheetChange, herr, viewVariant]
            | none => simp [render, applyUpdate, handleSheetChange, herr]

/-- C6 witness: on the two-variant state of the blob-failure fallback the
render priority picks the Error banner with the download link inside it, and
a concrete sheet switch on a table state leaves the rendered variant
unchanged. -/
theorem render_priority_witness :
    render (blobFailureState "x" "u")
      = View.errorBanner (mkErrorMessage "x") (some "u") ∧
    viewVariant (render (applyUpdate (StateUpdate.sheetChange "B")
        { content := none, error := none,
          tableData := { html := some [("A", "h"), ("B", "h")], activeSheet := some "A" },
          htmlContent := none }))
      = viewVariant (render
        { content := none, error := none,
          tableData := { html := some [("A", "h"), ("B", "h")], activeSheet := some "A" },
          htmlContent := none }) :=
  ⟨(render_single_variant_by_priority (blobFailureState "x" "u")).1
      (mkErrorMessage "x") rfl (by decide),
   (render_single_variant_by_priority
      { content := none, error := none,
        tableData := { html := some [("A", "h"), ("B", "h")], activeSheet := some "A" },
        htmlContent := none }).2.2.2.2.2.2.2
      (StateUpdate.sheetChange "B") rfl⟩

/-! ## Fetch-failure fallback (`fetchContent` catch handler, lines 42-59) -/

/-- The `mode` option of the JS `fetch` call. -/
inductive FetchMode
  | cors
  | noCors
deriving DecidableEq

/-- The retry performed by the catch handler: blob URLs are re-fetched with
`{ mode: 'cors' }` (line 47), other `http...` URLs with `{ mode: 'no-cors' }`
(line 54); in both cases the only product is a download-only content value
built from the fetched blob's object URL. Any other URL gets no fallback. -/
def fallbackPlan (url objectUrl : String) : Option (FetchMode × ContentVal) :=
  if strStartsWith url "blob:" then
    some (FetchMode.cors, ContentVal.download objectUrl none)
  else if strStartsWith url "http" then
    some (FetchMode.noCors, ContentVal.download objectUrl none)
  else none

/-- C7 counterexample: for a blob URL, the fallback fetch runs in the
standard `cors` mode, not the relaxed (`no-cors`) cross-origin mode the claim
describes; the relaxed mode is reserved for non-blob HTTP(S) URLs. -/
theorem blob_fallback_mode_counterexample :
    fallbackPlan "blob:demo" "obj" = some (FetchMode.cors, ContentVal.download "obj" none) ∧
    FetchMode.cors ≠ FetchMode.noCors ∧
    fallbackPlan "http://a" "obj" = some (FetchMode.noCors, ContentVal.download "obj" none) :=
  ⟨rfl, by decide, rfl⟩

/-- C7 (amended): for every blob-reference URL whose direct fetch fails, the
fetcher falls back to a degraded download-only result obtained by re-fetching
in the standard `cors` mode without validating success (the relaxed
`no-cors` mode is used for the non-blob HTTP(S) fallback instead); and every
fetch failure surfaces a user-facing error message that includes the guidance
to verify the proxy is reachable. -/
theorem blob_fallback_amended (url objectUrl errMsg : String)
    (hblob : strStartsWith url "blob:" = true) :
    fallbackPlan url objectUrl = some (FetchMode.cors, ContentVal.download objectUrl none) ∧
    strIncludes (mkErrorMessage errMsg) "Ensure the proxy server is running" = true := by
  constructor
  · simp [fallbackPlan, hblob]
  · show containsChars ("Ensure the proxy server is running").data
      (mkErrorMessage errMsg).data = true
    have hdata : (mkErrorMessage errMsg).data
        = ("Failed to load content: " ++ errMsg).data
          ++ (". Ensure the proxy server is running at http://localhost:5001.").data := by
      simp [mkErrorMessage, String.data_append]
    rw [hdata]
    exact containsChars_append_right _ _ _ (by decide)

/-- C7 witness: the amended fallback theorem at a concrete blob URL and
error message. -/
theorem blob_fallback_amended_witness :
    fallbackPlan "blob:demo2" "obj2"
        = some (FetchMode.cors, ContentVal.download "obj2" none) ∧
    strIncludes (mkErrorMessage "Blob fetch failed: 404 - Not Found")
        "Ensure the proxy server is running" = true :=
  blob_fallback_amended "blob:demo2" "obj2" "Blob fetch failed: 404 - Not Found" (by decide)


/-! ## Proxy server (`server.js`)

HTTP responses are embedded as status, Content-Type and body; the
Content-Disposition and CORS headers the routes also set are presentation
details elided here.  The outbound `fetch`, puppeteer page rendering and
mammoth Word conversion are external collaborators, passed in as inputs. -/

inductive RespBody
  | jsonError (error : String)
  | text (s : String)
  | stream (bytes : List Nat)
deriving DecidableEq

structure HttpResponse where
  status : Nat
  contentType : Option String
  body : RespBody
deriving DecidableEq

/-- A settled outbound fetch as the route sees it. -/
structure FetchResp where
  ok : Bool
  statusText : String
  contentType : Option String
  body : List Nat
deriving DecidableEq

inductive FetchOutcome
  | networkError (msg : String)
  | response (r : FetchResp)
deriving DecidableEq

def isFetchFailure : FetchOutcome → Bool
  | FetchOutcome.networkError _ => true
  | FetchOutcome.response r => !r.ok

def isSchemeChar (c : Char) : Bool :=
  c.isAlpha || c.isDigit || c == '+' || c == '-' || c == '.'

/-- The characters before the first ':' of the input, if any ':' occurs. -/
def schemeSplit : List Char → Option (List Char)
  | [] => none
  | c :: cs => if c == ':' then some [] else (schemeSplit cs).map (fun l => c :: l)

/-- Modelled from the WHATWG `new URL(url)` platform API the route calls
(external to the repository): an absolute URL starts with `scheme:` where the
scheme is a letter followed by letters, digits, `+`, `-` or `.`; `.protocol`
is the lower-cased scheme with the trailing colon, and any other input throws
(here: `none`). -/
def parseProtocol (url : String) : Option String :=
  match schemeSplit url.data with
  | none => none
  | some [] => none
  | some (c :: cs) =>
      if c.isAlpha && cs.all isSchemeChar then
        some (String.mk ((c :: cs).map Char.toLower) ++ ":")
      else none

/-- `GET /proxy` (server.js lines 81-154): validate the `url` query
parameter, restrict to http/https, fetch, and stream back; `text/html` goes
through puppeteer (`renderPage`), Word documents through mammoth
(`convertToHtml`); any thrown error answers 500 with a JSON error body. -/
def proxyHandler (urlParam : Option String) (outcome : FetchOutcome)
    (renderPage : String → Except String String)
    (convertToHtml : List Nat → String) : HttpResponse :=
  match urlParam with
  | none =>
      { status := 400, contentType := some "application/json",
        body := RespBody.jsonError "URL parameter is required" }
  | some url =>
      match parseProtocol url with
      | none =>
          { status := 400, contentType := some "application/json",
            body := RespBody.jsonError "Invalid URL format" }
      | some protocol =>
          if protocol = "http:" || protocol = "https:" then
            match outcome with
            | FetchOutcome.networkError msg =>
                { status := 500, contentType := some "application/json",
                  body := RespBody.jsonError ("Error fetching URL: " ++ msg) }
            | FetchOutcome.response r =>
                if r.ok = false then
                  { status := 500, contentType := some "application/json",
                    body := RespBody.jsonError
                      ("Error fetching URL: Failed to fetch URL: " ++ r.statusText) }
                else
                  let ct := r.contentType.getD "application/octet-stream"
                  if strIncludes ct "text/html" then
                    match renderPage url with
                    | Except.ok content =>
                        { status := 200, contentType := some ct,
                          body := RespBody.text content }
                    | Except.error msg =>
                        { status := 500, contentType := some "application/json",
                          body := RespBody.jsonError
                            ("Error fetching URL: Puppeteer error: " ++ msg) }
                  else if strIncludes ct
                      "application/vnd.openxmlformats-officedocument.wordprocessingml.document" then
                    { status := 200, contentType := some "text/html",
                      body := RespBody.text (convertToHtml r.body) }
                  else
                    { status := 200, contentType := some ct,
                      body := RespBody.stream r.body }
          else
            { status := 400, contentType := some "application/json",
              body := RespBody.jsonError "Only HTTP/HTTPS URLs are allowed" }

/-- C8: `GET /proxy` rejects every URL whose scheme is not HTTP or HTTPS with
status 400 and a JSON error body (whether the URL fails to parse or parses to
another scheme), and answers every fetch failure — target unreachable or a
non-2xx response — with status 500 and a JSON error body. -/
theorem proxy_rejects_bad_scheme_and_fails_with_500 (url : String)
    (outcome : FetchOutcome) (renderPage : String → Except String String)
    (convertToHtml : List Nat → String) :
    (¬(parseProtocol url = some "http:" ∨ parseProtocol url = some "https:") →
      (proxyHandler (some url) outcome renderPage convertToHtml).status = 400 ∧
      ∃ e, (proxyHandler (some url) outcome renderPage convertToHtml).body
          = RespBody.jsonError e) ∧
    ((parseProtocol url = some "http:" ∨ parseProtocol url = some "https:") →
      isFetchFailure outcome = true →
      (proxyHandler (some url) outcome renderPage convertToHtml).status = 500 ∧
      ∃ e, (proxyHandler (some url) outcome renderPage convertToHtml).body
          = RespBody.jsonError e) := by
  constructor
  · intro hbad
    cases hp : parseProtocol url with
    | none =>
        exact ⟨by simp [proxyHandler, hp],
          ⟨"Invalid URL format", by simp [proxyHandler, hp]⟩⟩
    | some p =>
        have h1 : p ≠ "http:" := fun h => hbad (Or.inl (by rw [hp, h]))
        have h2 : p ≠ "https:" := fun h => hbad (Or.inr (by rw [hp, h]))
        exact ⟨by simp [proxyHandler, hp, h1, h2],
          ⟨"Only HTTP/HTTPS URLs are allowed", by simp [proxyHandler, hp, h1, h2]⟩⟩
  · intro hgood hfail
    cases outcome with
    | networkError msg =>
        rcases hgood with hp | hp
        · exact ⟨by simp [proxyHandler, hp],
            ⟨"Error fetching URL: " ++ msg, by simp [proxyHandler, hp]⟩⟩
        · exact ⟨by simp [proxyHandler, hp],
            ⟨"Error fetching URL: " ++ msg, by simp [proxyHandler, hp]⟩⟩
    | response r =>
        have hok : r.ok = false := by
          simpa [isFetchFailure] using hfail
        rcases hgood with hp | hp
        · exact ⟨by simp [proxyHandler, hp, hok],
            ⟨"Error fetching URL: Failed to fetch URL: " ++ r.statusText,
             by simp [proxyHandler, hp, hok]⟩⟩
        · exact ⟨by simp [proxyHandler, hp, hok],
            ⟨"Error fetching URL: Failed to fetch URL: " ++ r.statusText,
             by simp [proxyHandler, hp, hok]⟩⟩

/-- C8 witness: an `ftp:` URL is answered 400, and an unreachable HTTP target
is answered 500. -/
theorem proxy_error_paths_witness :
    (proxyHandler (some "ftp://host/file") (FetchOutcome.networkError "x")
        (fun _ => Except.ok "") (fun _ => "")).status = 400 ∧
    (proxyHandler (some "http://host/file")
        (FetchOutcome.networkError "connect ECONNREFUSED")
        (fun _ => Except.ok "") (fun _ => "")).status = 500 :=
  ⟨((proxy_rejects_bad_scheme_and_fails_with_500 "ftp://host/file"
      (FetchOutcome.networkError "x") (fun _ => Except.ok "") (fun _ => "")).1
      (by decide)).1,
   ((proxy_rejects_bad_scheme_and_fails_with_500 "http://host/file"
      (FetchOutcome.networkError "connect ECONNREFUSED")
      (fun _ => Except.ok "") (fun _ => "")).2
      (by decide) (by decide)).1⟩

/-! ## Upload endpoint (`POST /upload`, server.js lines 52-78 and 157-181) -/

structure UploadedFile where
  originalname : String
  mimetype : String
  buffer : List Nat
deriving DecidableEq

/-- The multer MIME allow-list (lines 56-67); a file of any other type is
rejected by the `fileFilter` before the route body runs. -/
def allowedTypes : List String :=
  [ "application/pdf",
    "text/csv",
    "application/vnd.ms-excel",
    "application/vnd.openxmlformats-officedocument.spreadsheetml.sheet",
    "application/msword",
    "application/vnd.openxmlformats-officedocument.wordprocessingml.document",
    "application/vnd.ms-powerpoint",
    "application/vnd.openxmlformats-officedocument.presentationml.presentation",
    "image/jpeg",
    "image/png" ]

def docxMime : String :=
  "application/vnd.openxmlformats-officedocument.wordprocessingml.document"

/-- The `/upload` route body (lines 161-176): 400 without a file; Word
documents are converted to HTML by mammoth (`convertToHtml`) and sent as
`text/html`; every other file is sent back unchanged under its own MIME
type. -/
def uploadHandler (file? : Option UploadedFile)
    (convertToHtml : List Nat → String) : HttpResponse :=
  match file? with
  | none =>
      { status := 400, contentType := some "application/json",
        body := RespBody.jsonError "No file uploaded" }
  | some f =>
      if strIncludes f.mimetype docxMime then
        { status := 200, contentType := some "text/html",
          body := RespBody.text (convertToHtml f.buffer) }
      else
        { status := 200, contentType := some f.mimetype,
          body := RespBody.stream f.buffer }

/-- C9: uploading a file with the Word (.docx) MIME type returns a
`text/html` response whose body is the HTML converted from the document, not
the raw uploaded bytes; every other allow-listed type is passed through with
its original MIME type and unchanged bytes. -/
theorem upload_docx_converted_others_passthrough (f : UploadedFile)
    (convertToHtml : List Nat → String)
    (hdocx : f.mimetype = docxMime) :
    (uploadHandler (some f) convertToHtml).contentType = some "text/html" ∧
    (uploadHandler (some f) convertToHtml).body
        = RespBody.text (convertToHtml f.buffer) ∧
    (∀ b, (uploadHandler (some f) convertToHtml).body ≠ RespBody.stream b) ∧
    (∀ g : UploadedFile, g.mimetype ∈ allowedTypes →
      strIncludes g.mimetype docxMime = false →
      (uploadHandler (some g) convertToHtml).contentType = some g.mimetype ∧
      (uploadHandler (some g) convertToHtml).body = RespBody.stream g.buffer) := by
  have hinc : strIncludes f.mimetype docxMime = true := by
    rw [hdocx]; exact strIncludes_self docxMime
  refine ⟨by simp [uploadHandler, hinc], by simp [uploadHandler, hinc],
    fun b => by simp [uploadHandler, hinc], fun g _ hng => ?_⟩
  exact ⟨by simp [uploadHandler, hng], by simp [uploadHandler, hng]⟩

/-- C9 witness: a concrete .docx upload is converted, a concrete PNG upload is
passed through. -/
theorem upload_docx_witness :
    (uploadHandler (some ⟨"doc.docx", docxMime, [0, 1]⟩)
        (fun _ => "<p>converted</p>")).contentType = some "text/html" ∧
    (uploadHandler (some ⟨"doc.docx", docxMime, [0, 1]⟩)
        (fun _ => "<p>converted</p>")).body = RespBody.text "<p>converted</p>" ∧
    (uploadHandler (some ⟨"img.png", "image/png", [2, 3]⟩)
        (fun _ => "<p>converted</p>")).contentType = some "image/png" ∧
    (uploadHandler (some ⟨"img.png", "image/png", [2, 3]⟩)
        (fun _ => "<p>converted</p>")).body = RespBody.stream [2, 3] :=
  ⟨(upload_docx_converted_others_passthrough ⟨"doc.docx", docxMime, [0, 1]⟩
      (fun _ => "<p>converted</p>") rfl).1,
   (upload_docx_converted_others_passthrough ⟨"doc.docx", docxMime, [0, 1]⟩
      (fun _ => "<p>converted</p>") rfl).2.1,
   ((upload_docx_converted_others_passthrough ⟨"doc.docx", docxMime, [0, 1]⟩
      (fun _ => "<p>converted</p>") rfl).2.2.2 ⟨"img.png", "image/png", [2, 3]⟩
      (by decide) (by decide)).1,
   ((upload_docx_converted_others_passthrough ⟨"doc.docx", docxMime, [0, 1]⟩
      (fun _ => "<p>converted</p>") rfl).2.2.2 ⟨"img.png", "image/png", [2, 3]⟩
      (by decide) (by decide)).2⟩

/-- C10: a `POST /upload` request carrying no file field is answered 400 with
the JSON body `{"error": "No file uploaded"}`; the response is the same for
every converter, so no conversion or passthrough is attempted. -/
theorem upload_without_file_is_400 :
    ∀ convertToHtml : List Nat → String,
      uploadHandler none convertToHtml
        = { status := 400, contentType := some "application/json",
            body := RespBody.jsonError "No file uploaded" } :=
  fun _ => rfl
